import Mathlib

/-!
Verification of the periodic soil-heat-diffusion field generator shared by the
repository's scripts (`soil_temperature_depth.py` and the soil-temperature-profile
script).  The scripts compute, over a (depth × time) grid,

  soil_temperature = surface_temp_mean
      + surface_temp_amplitude * decay_factor * sin(pi * (t - 8) / 12 + phase_lag)

with `decay_factor = exp(-z * sqrt(pi / (k * P)))`, `phase_lag = -z * sqrt(pi / (k * P))`,
`z` the depth magnitude, `k = 0.005 * 3600` and `P = 24`.  We embed the computation
over the reals, parametric in the thermal parameters the spec names, and prove the
spec's properties of the generated field.
-/

/-- Thermal parameters of the periodic diffusion model.  The source scripts
hard-code them as `surface_temp_mean = 25`, `surface_temp_amplitude = 10`,
`k = 0.005 * 3600`, `P = 24` and the literal phase offset `8`; the spec exposes
them as a configuration record with these names. -/
structure ThermalParams where
  meanTemperature : ℝ
  amplitude : ℝ
  diffusivity : ℝ
  period : ℝ
  phaseOffset : ℝ

/-- Embeds `decay_factor = np.exp(-z * np.sqrt(np.pi / (k * P)))` where `z` is the
depth magnitude (`z = -depth_grid` in the source). -/
noncomputable def decay_factor (p : ThermalParams) (z : ℝ) : ℝ :=
  Real.exp (-z * Real.sqrt (Real.pi / (p.diffusivity * p.period)))

/-- Embeds `phase_lag = -z * np.sqrt(np.pi / (k * P))`. -/
noncomputable def phase_lag (p : ThermalParams) (z : ℝ) : ℝ :=
  -z * Real.sqrt (Real.pi / (p.diffusivity * p.period))

/-- Embeds one cell of the source's field computation
`soil_temperature = surface_temp_mean + surface_temp_amplitude * decay_factor *
np.sin(np.pi * (time_grid - 8) / 12 + phase_lag)`, with the hard-coded constants
generalised to the parameter record (`12 = P / 2` and `8 = phaseOffset` in the
source). -/
noncomputable def soil_temperature (p : ThermalParams) (z t : ℝ) : ℝ :=
  p.meanTemperature + p.amplitude * decay_factor p z *
    Real.sin (Real.pi * (t - p.phaseOffset) / (p.period / 2) + phase_lag p z)

/-- Embeds the profile script's surface forcing signal
`surface_temperature = surface_temp_mean + surface_temp_amplitude *
np.sin(np.pi * (time_grid - 8) / 12)`. -/
noncomputable def surface_temperature (p : ThermalParams) (t : ℝ) : ℝ :=
  p.meanTemperature + p.amplitude *
    Real.sin (Real.pi * (t - p.phaseOffset) / (p.period / 2))

/-- The full D×T field: rows indexed by depth (non-positive values, as in
`depth_points`), columns by time, each cell computed by the source formula with
`z = -depth` as in the scripts. -/
noncomputable def temperature_field (p : ThermalParams)
    (depthDomain timeDomain : List ℝ) : List (List ℝ) :=
  depthDomain.map fun d => timeDomain.map fun t => soil_temperature p (-d) t

/-- Reference closed form transcribed from the spec's algorithm section:
`temperature(z, t) = meanTemperature + amplitude * exp(-z * sqrt(pi /
(diffusivity * period))) * sin(pi * (t - phaseOffset) / (period / 2) +
(-z * sqrt(pi / (diffusivity * period))))`. -/
noncomputable def specTemperature (p : ThermalParams) (z t : ℝ) : ℝ :=
  p.meanTemperature + p.amplitude *
    Real.exp (-z * Real.sqrt (Real.pi / (p.diffusivity * p.period))) *
    Real.sin (Real.pi * (t - p.phaseOffset) / (p.period / 2) +
      (-z * Real.sqrt (Real.pi / (p.diffusivity * p.period))))

/-- The parameter values hard-coded by both scripts: mean 25 °C, amplitude 10 °C,
diffusivity `0.005 * 3600 = 18` cm²/h, period 24 h, phase offset 8 h. -/
noncomputable def scriptParams : ThermalParams :=
  { meanTemperature := 25
    amplitude := 10
    diffusivity := 0.005 * 3600
    period := 24
    phaseOffset := 8 }

/-- The time at which the sinusoid's argument equals `pi / 2`, i.e. the canonical
time of the temperature maximum at depth magnitude `z`. -/
noncomputable def t_peak (p : ThermalParams) (z : ℝ) : ℝ :=
  p.phaseOffset + (p.period / 2) / Real.pi * (Real.pi / 2 - phase_lag p z)

/-- The time at which the sinusoid's argument equals `-(pi / 2)`, i.e. the
canonical time of the temperature minimum at depth magnitude `z`. -/
noncomputable def t_trough (p : ThermalParams) (z : ℝ) : ℝ :=
  p.phaseOffset + (p.period / 2) / Real.pi * (-(Real.pi / 2) - phase_lag p z)

/-- Peak-to-trough swing of the temperature at depth magnitude `z`, over
continuous time. -/
noncomputable def tswing (p : ThermalParams) (z : ℝ) : ℝ :=
  sSup (Set.range fun t => soil_temperature p z t) -
    sInf (Set.range fun t => soil_temperature p z t)

/-- Error taxonomy of the spec's generator contract. -/
inductive GenError where
  | invalidDomain : GenError
  | invalidParameter : GenError
  deriving DecidableEq

/-- Time-domain invariant from the spec: non-empty and strictly increasing. -/
def timeDomainOk (timeDomain : List ℝ) : Prop :=
  timeDomain ≠ [] ∧ timeDomain.Chain' (· < ·)

/-- Depth-domain invariant from the spec: non-empty, first element 0 (the
surface), non-increasing thereafter. -/
def depthDomainOk (depthDomain : List ℝ) : Prop :=
  depthDomain ≠ [] ∧ depthDomain.head? = some 0 ∧
    depthDomain.Chain' (fun a b => b ≤ a)

/-- Parameter invariants from the spec: amplitude ≥ 0, diffusivity > 0,
period > 0. -/
def paramsOk (p : ThermalParams) : Prop :=
  0 ≤ p.amplitude ∧ 0 < p.diffusivity ∧ 0 < p.period

section
attribute [local instance] Classical.propDecidable

/-- Modelled from the spec: the validating generator contract
`generateField(timeDomain, depthDomain, params) -> TemperatureField` of spec
§4.1/§7 — the scripts inline the field computation with fixed constants and
contain no validation code, so the fail-fast wrapper exists only in the spec.
It raises `InvalidDomainError` on a domain-invariant violation,
`InvalidParameterError` on a parameter-invariant violation, and otherwise
returns the complete field with no clamping or default substitution. -/
noncomputable def generateField (timeDomain depthDomain : List ℝ)
    (p : ThermalParams) : Except GenError (List (List ℝ)) :=
  if timeDomainOk timeDomain then
    if depthDomainOk depthDomain then
      if paramsOk p then
        Except.ok (temperature_field p depthDomain timeDomain)
      else Except.error GenError.invalidParameter
    else Except.error GenError.invalidDomain
  else Except.error GenError.invalidDomain

end

/-- The decay factor is strictly positive at every depth. -/
lemma decay_factor_pos (p : ThermalParams) (z : ℝ) : 0 < decay_factor p z :=
  Real.exp_pos _

/-- The decay factor is at most 1 for non-negative depth magnitudes. -/
lemma decay_factor_le_one (p : ThermalParams) (z : ℝ) (hz : 0 ≤ z) :
    decay_factor p z ≤ 1 := by
  have hs := Real.sqrt_nonneg (Real.pi / (p.diffusivity * p.period))
  rw [decay_factor]
  calc Real.exp (-z * Real.sqrt (Real.pi / (p.diffusivity * p.period))) ≤ Real.exp 0 :=
    Real.exp_le_exp.mpr (by nlinarith)
  _ = 1 := Real.exp_zero

/-- The decay factor equals 1 at the surface. -/
lemma decay_factor_zero (p : ThermalParams) : decay_factor p 0 = 1 := by
  simp [decay_factor]

/-- With positive diffusivity and period the decay factor strictly decreases in
the depth magnitude. -/
lemma decay_factor_strict_anti (p : ThermalParams) (hk : 0 < p.diffusivity)
    (hP : 0 < p.period) {z1 z2 : ℝ} (h : z1 < z2) :
    decay_factor p z2 < decay_factor p z1 := by
  have hc : 0 < Real.sqrt (Real.pi / (p.diffusivity * p.period)) :=
    Real.sqrt_pos.mpr (by positivity)
  rw [decay_factor, decay_factor]
  exact Real.exp_lt_exp.mpr (by nlinarith)

/-- Every temperature is at most the value at the canonical peak amplitude. -/
lemma soil_temperature_le_peak (p : ThermalParams) (hA : 0 ≤ p.amplitude)
    (z t : ℝ) :
    soil_temperature p z t ≤ p.meanTemperature + p.amplitude * decay_factor p z := by
  have hd := decay_factor_pos p z
  have hs := Real.sin_le_one
    (Real.pi * (t - p.phaseOffset) / (p.period / 2) + phase_lag p z)
  have h := mul_le_mul_of_nonneg_left hs (mul_nonneg hA hd.le)
  rw [soil_temperature]
  linarith

/-- Every temperature is at least the value at the canonical trough amplitude. -/
lemma trough_le_soil_temperature (p : ThermalParams) (hA : 0 ≤ p.amplitude)
    (z t : ℝ) :
    p.meanTemperature - p.amplitude * decay_factor p z ≤ soil_temperature p z t := by
  have hd := decay_factor_pos p z
  have hs := Real.neg_one_le_sin
    (Real.pi * (t - p.phaseOffset) / (p.period / 2) + phase_lag p z)
  have h := mul_le_mul_of_nonneg_left hs (mul_nonneg hA hd.le)
  rw [soil_temperature]
  linarith

/-- At `t_peak` the sinusoid attains 1, so the temperature attains its maximum. -/
lemma soil_temperature_at_t_peak (p : ThermalParams) (hP : p.period ≠ 0) (z : ℝ) :
    soil_temperature p z (t_peak p z) =
      p.meanTemperature + p.amplitude * decay_factor p z := by
  have harg : Real.pi * (t_peak p z - p.phaseOffset) / (p.period / 2) + phase_lag p z =
      Real.pi / 2 := by
    rw [t_peak]
    field_simp
    ring
  rw [soil_temperature, harg, Real.sin_pi_div_two, mul_one]

/-- At `t_trough` the sinusoid attains -1, so the temperature attains its
minimum. -/
lemma soil_temperature_at_t_trough (p : ThermalParams) (hP : p.period ≠ 0) (z : ℝ) :
    soil_temperature p z (t_trough p z) =
      p.meanTemperature - p.amplitude * decay_factor p z := by
  have harg : Real.pi * (t_trough p z - p.phaseOffset) / (p.period / 2) + phase_lag p z =
      -(Real.pi / 2) := by
    rw [t_trough]
    field_simp
    ring
  rw [soil_temperature, harg, Real.sin_neg, Real.sin_pi_div_two]
  ring

/-- The continuous-time peak-to-trough swing at depth magnitude `z` equals twice
the attenuated amplitude. -/
lemma tswing_eq (p : ThermalParams) (hA : 0 ≤ p.amplitude) (hP : 0 < p.period)
    (z : ℝ) :
    tswing p z = 2 * (p.amplitude * decay_factor p z) := by
  have hgr : IsGreatest (Set.range fun t => soil_temperature p z t)
      (p.meanTemperature + p.amplitude * decay_factor p z) := by
    constructor
    · exact ⟨t_peak p z, soil_temperature_at_t_peak p hP.ne' z⟩
    · rintro y ⟨t, rfl⟩
      exact soil_temperature_le_peak p hA z t
  have hls : IsLeast (Set.range fun t => soil_temperature p z t)
      (p.meanTemperature - p.amplitude * decay_factor p z) := by
    constructor
    · exact ⟨t_trough p z, soil_temperature_at_t_trough p hP.ne' z⟩
    · rintro y ⟨t, rfl⟩
      exact trough_le_soil_temperature p hA z t
  rw [tswing, hgr.csSup_eq, hls.csInf_eq]
  ring

/-- Claim C1: for every parameter record, depth magnitude `z` and time `t`, the
program's computed temperature equals the spec's closed-form reference
definition, and the whole computed field agrees with it cell for cell. -/
theorem soil_temperature_matches_spec (p : ThermalParams)
    (depthDomain timeDomain : List ℝ) (z t : ℝ) :
    soil_temperature p z t = specTemperature p z t ∧
    temperature_field p depthDomain timeDomain =
      depthDomain.map fun d => timeDomain.map fun s => specTemperature p (-d) s := by
  constructor
  · simp [soil_temperature, specTemperature, decay_factor, phase_lag]
  · simp [temperature_field, soil_temperature, specTemperature, decay_factor, phase_lag]

/-- Claim C3: at the surface (`z = 0`) the general formula reduces exactly to the
forcing sinusoid `meanTemperature + amplitude * sin(pi * (t - phaseOffset) /
(period / 2))` with no special-casing, and the field over the depth domain `[0]`
is the single row of forcing values. -/
theorem surface_identity (p : ThermalParams) (timeDomain : List ℝ) (t : ℝ) :
    soil_temperature p 0 t = surface_temperature p t ∧
    temperature_field p [0] timeDomain = [timeDomain.map fun s => surface_temperature p s] := by
  constructor
  · simp [soil_temperature, surface_temperature, decay_factor, phase_lag]
  · simp [temperature_field, soil_temperature, surface_temperature, decay_factor, phase_lag]

/-- Claim C7: the field is periodic in time with period `period`:
`field[z, t + period] = field[z, t]` exactly, at every depth. -/
theorem soil_temperature_periodic (p : ThermalParams) (z t : ℝ)
    (hP : 0 < p.period) :
    soil_temperature p z (t + p.period) = soil_temperature p z t := by
  have harg : Real.pi * (t + p.period - p.phaseOffset) / (p.period / 2) + phase_lag p z =
      Real.pi * (t - p.phaseOffset) / (p.period / 2) + phase_lag p z + 2 * Real.pi := by
    field_simp
    ring
  rw [soil_temperature, soil_temperature, harg, Real.sin_add_two_pi]

/-- Witness for C7 at the script's parameters, depth magnitude 5 and time 3. -/
theorem soil_temperature_periodic_witness :
    (0 : ℝ) < scriptParams.period ∧
    soil_temperature scriptParams 5 (3 + scriptParams.period) =
      soil_temperature scriptParams 5 3 :=
  ⟨by norm_num [scriptParams], soil_temperature_periodic scriptParams 5 3 (by norm_num [scriptParams])⟩

/-- Claim C9: advancing time by half a period reflects every temperature about
the mean: `field(z, t + period / 2) + field(z, t) = 2 * meanTemperature` at
every depth and time. -/
theorem half_period_antisymmetry (p : ThermalParams) (z t : ℝ)
    (hP : 0 < p.period) :
    soil_temperature p z (t + p.period / 2) + soil_temperature p z t =
      2 * p.meanTemperature := by
  have harg : Real.pi * (t + p.period / 2 - p.phaseOffset) / (p.period / 2) + phase_lag p z =
      Real.pi * (t - p.phaseOffset) / (p.period / 2) + phase_lag p z + Real.pi := by
    field_simp
    ring
  rw [soil_temperature, soil_temperature, harg, Real.sin_add_pi]
  ring

/-- Witness for C9 at the script's parameters, depth magnitude 5 and time 3. -/
theorem half_period_antisymmetry_witness :
    (0 : ℝ) < scriptParams.period ∧
    soil_temperature scriptParams 5 (3 + scriptParams.period / 2) +
      soil_temperature scriptParams 5 3 = 2 * scriptParams.meanTemperature :=
  ⟨by norm_num [scriptParams], half_period_antisymmetry scriptParams 5 3 (by norm_num [scriptParams])⟩

/-- Claim C4: for valid parameters and non-negative depth magnitude, every field
value lies in the closed interval from `meanTemperature - amplitude` to
`meanTemperature + amplitude` (finiteness is intrinsic to the real-valued
model). -/
theorem field_bounded (p : ThermalParams) (z t : ℝ) (hA : 0 ≤ p.amplitude)
    (hk : 0 < p.diffusivity) (hP : 0 < p.period) (hz : 0 ≤ z) :
    p.meanTemperature - p.amplitude ≤ soil_temperature p z t ∧
      soil_temperature p z t ≤ p.meanTemperature + p.amplitude := by
  have h1 := soil_temperature_le_peak p hA z t
  have h2 := trough_le_soil_temperature p hA z t
  have h3 := decay_factor_le_one p z hz
  have h4 := decay_factor_pos p z
  constructor <;> nlinarith

/-- Witness for C4 at the script's parameters, depth magnitude 5 and time 3. -/
theorem field_bounded_witness :
    (0 : ℝ) ≤ scriptParams.amplitude ∧ (0 : ℝ) < scriptParams.diffusivity ∧
    (0 : ℝ) < scriptParams.period ∧ (0 : ℝ) ≤ 5 ∧
    (scriptParams.meanTemperature - scriptParams.amplitude ≤
        soil_temperature scriptParams 5 3 ∧
      soil_temperature scriptParams 5 3 ≤
        scriptParams.meanTemperature + scriptParams.amplitude) :=
  ⟨by norm_num [scriptParams], by norm_num [scriptParams], by norm_num [scriptParams],
    by norm_num,
    field_bounded scriptParams 5 3 (by norm_num [scriptParams])
      (by norm_num [scriptParams]) (by norm_num [scriptParams]) (by norm_num)⟩

/-- Claim C5: the peak-to-trough swing is non-increasing in the depth magnitude,
and the decay factor is strictly decreasing, lies in the interval (0, 1] for
non-negative depth magnitudes, and equals 1 at the surface. -/
theorem attenuation_monotone (p : ThermalParams) (z1 z2 : ℝ)
    (hA : 0 ≤ p.amplitude) (hk : 0 < p.diffusivity) (hP : 0 < p.period)
    (hz1 : 0 ≤ z1) (h12 : z1 < z2) :
    tswing p z2 ≤ tswing p z1 ∧
    decay_factor p z2 < decay_factor p z1 ∧
    0 < decay_factor p z2 ∧ decay_factor p z2 ≤ 1 ∧
    decay_factor p 0 = 1 := by
  have hanti := decay_factor_strict_anti p hk hP h12
  refine ⟨?_, hanti, decay_factor_pos p z2,
    decay_factor_le_one p z2 (by linarith), decay_factor_zero p⟩
  rw [tswing_eq p hA hP z1, tswing_eq p hA hP z2]
  nlinarith

/-- Witness for C5 at the script's parameters, depth magnitudes 1 and 2. -/
theorem attenuation_monotone_witness :
    (0 : ℝ) ≤ scriptParams.amplitude ∧ (0 : ℝ) < scriptParams.diffusivity ∧
    (0 : ℝ) < scriptParams.period ∧ (0 : ℝ) ≤ 1 ∧ (1 : ℝ) < 2 ∧
    (tswing scriptParams 2 ≤ tswing scriptParams 1 ∧
      decay_factor scriptParams 2 < decay_factor scriptParams 1 ∧
      0 < decay_factor scriptParams 2 ∧ decay_factor scriptParams 2 ≤ 1 ∧
      decay_factor scriptParams 0 = 1) :=
  ⟨by norm_num [scriptParams], by norm_num [scriptParams], by norm_num [scriptParams],
    by norm_num, by norm_num,
    attenuation_monotone scriptParams 1 2 (by norm_num [scriptParams])
      (by norm_num [scriptParams]) (by norm_num [scriptParams]) (by norm_num)
      (by norm_num)⟩

/-- Claim C6: `t_peak` is a time of maximum at each depth, the time of maximum
strictly increases with the depth magnitude, the phase-lag magnitude grows
strictly with the depth magnitude, and the phase lag vanishes at the surface. -/
theorem peak_time_monotone (p : ThermalParams) (z1 z2 : ℝ)
    (hA : 0 ≤ p.amplitude) (hk : 0 < p.diffusivity) (hP : 0 < p.period)
    (hz1 : 0 ≤ z1) (h12 : z1 < z2) :
    (∀ t, soil_temperature p z1 t ≤ soil_temperature p z1 (t_peak p z1)) ∧
    (∀ t, soil_temperature p z2 t ≤ soil_temperature p z2 (t_peak p z2)) ∧
    t_peak p z1 < t_peak p z2 ∧
    -phase_lag p z1 < -phase_lag p z2 ∧
    phase_lag p 0 = 0 := by
  have hc : 0 < Real.sqrt (Real.pi / (p.diffusivity * p.period)) :=
    Real.sqrt_pos.mpr (by positivity)
  have hlag : phase_lag p z2 < phase_lag p z1 := by
    rw [phase_lag, phase_lag]
    nlinarith
  refine ⟨fun t => ?_, fun t => ?_, ?_, by linarith, by simp [phase_lag]⟩
  · rw [soil_temperature_at_t_peak p hP.ne' z1]
    exact soil_temperature_le_peak p hA z1 t
  · rw [soil_temperature_at_t_peak p hP.ne' z2]
    exact soil_temperature_le_peak p hA z2 t
  · have hcoef : 0 < (p.period / 2) / Real.pi := by positivity
    rw [t_peak, t_peak]
    nlinarith [mul_pos hcoef (sub_pos.mpr hlag)]

/-- Witness for C6 at the script's parameters, depth magnitudes 1 and 2, with
the maximality conjuncts instantiated at time 0. -/
theorem peak_time_monotone_witness :
    (0 : ℝ) ≤ scriptParams.amplitude ∧ (0 : ℝ) < scriptParams.diffusivity ∧
    (0 : ℝ) < scriptParams.period ∧ (0 : ℝ) ≤ 1 ∧ (1 : ℝ) < 2 ∧
    (soil_temperature scriptParams 1 0 ≤
        soil_temperature scriptParams 1 (t_peak scriptParams 1) ∧
      soil_temperature scriptParams 2 0 ≤
        soil_temperature scriptParams 2 (t_peak scriptParams 2) ∧
      t_peak scriptParams 1 < t_peak scriptParams 2 ∧
      -phase_lag scriptParams 1 < -phase_lag scriptParams 2 ∧
      phase_lag scriptParams 0 = 0) :=
  ⟨by norm_num [scriptParams], by norm_num [scriptParams], by norm_num [scriptParams],
    by norm_num, by norm_num,
    (peak_time_monotone scriptParams 1 2 (by norm_num [scriptParams])
      (by norm_num [scriptParams]) (by norm_num [scriptParams]) (by norm_num)
      (by norm_num)).1 0,
    (peak_time_monotone scriptParams 1 2 (by norm_num [scriptParams])
      (by norm_num [scriptParams]) (by norm_num [scriptParams]) (by norm_num)
      (by norm_num)).2.1 0,
    (peak_time_monotone scriptParams 1 2 (by norm_num [scriptParams])
      (by norm_num [scriptParams]) (by norm_num [scriptParams]) (by norm_num)
      (by norm_num)).2.2.1,
    (peak_time_monotone scriptParams 1 2 (by norm_num [scriptParams])
      (by norm_num [scriptParams]) (by norm_num [scriptParams]) (by norm_num)
      (by norm_num)).2.2.2.1,
    (peak_time_monotone scriptParams 1 2 (by norm_num [scriptParams])
      (by norm_num [scriptParams]) (by norm_num [scriptParams]) (by norm_num)
      (by norm_num)).2.2.2.2⟩

/-- At the script's diffusivity and period the decay factor at 50 cm is below
one tenth: `exp(-50 * sqrt(pi / 432)) < 1 / 10`. -/
lemma decay_factor_fifty_lt :
    decay_factor scriptParams 50 < 1 / 10 := by
  have hpi3 : (3 : ℝ) < Real.pi := Real.pi_gt_three
  have hsq : (1 : ℝ) / 12 ≤ Real.sqrt (Real.pi / (0.005 * 3600 * 24)) := by
    have h0 : ((1 : ℝ) / 144) ≤ Real.pi / (0.005 * 3600 * 24) := by
      rw [show ((0.005 : ℝ) * 3600 * 24) = 432 by norm_num]
      rw [le_div_iff (by norm_num)]
      linarith
    calc (1 : ℝ) / 12 = Real.sqrt ((1 / 12) ^ 2) := (Real.sqrt_sq (by norm_num)).symm
    _ = Real.sqrt (1 / 144) := by norm_num
    _ ≤ Real.sqrt (Real.pi / (0.005 * 3600 * 24)) := Real.sqrt_le_sqrt h0
  have h1 : decay_factor scriptParams 50 ≤ Real.exp (-(25 / 6)) := by
    rw [decay_factor]
    apply Real.exp_le_exp.mpr
    rw [show scriptParams.diffusivity * scriptParams.period = 0.005 * 3600 * 24 from by
      norm_num [scriptParams]]
    nlinarith
  have h2 : (10 : ℝ) < Real.exp (25 / 6) := by
    have he : (43 : ℝ) / 18 ≤ Real.exp (25 / 18) := by
      nlinarith [Real.add_one_le_exp ((25 : ℝ) / 18)]
    have h3 : Real.exp ((25 : ℝ) / 6) =
        Real.exp (25 / 18) * Real.exp (25 / 18) * Real.exp (25 / 18) := by
      rw [← Real.exp_add, ← Real.exp_add]
      norm_num
    rw [h3]
    nlinarith [Real.exp_pos ((25 : ℝ) / 18)]
  have h4 : Real.exp (-(25 / 6 : ℝ)) < 1 / 10 := by
    rw [Real.exp_neg]
    have h5 : (10 : ℝ) ≤ Real.exp (25 / 6) := h2.le
    rw [show (1 : ℝ) / 10 = 10⁻¹ by norm_num]
    exact inv_lt_inv_of_lt (by norm_num) h2
  linarith

/-- Claim C8: at the scripts' parameters (mean 25, amplitude 10, diffusivity
18 cm²/h, period 24 h, phase offset 8 h) the surface value at time 14 is
exactly 35 — the surface peak — and the peak-to-trough swing at 50 cm depth is
below 10 percent of the swing at the surface. -/
theorem concrete_scenario :
    soil_temperature scriptParams 0 14 = 35 ∧
    tswing scriptParams 50 < 10 / 100 * tswing scriptParams 0 := by
  constructor
  · rw [soil_temperature, decay_factor_zero, mul_one]
    rw [show Real.pi * ((14 : ℝ) - scriptParams.phaseOffset) / (scriptParams.period / 2) +
        phase_lag scriptParams 0 = Real.pi / 2 from by
      rw [phase_lag]
      norm_num [scriptParams]
      ring]
    rw [Real.sin_pi_div_two]
    norm_num [scriptParams]
  · have hA : (0 : ℝ) ≤ scriptParams.amplitude := by norm_num [scriptParams]
    have hP : (0 : ℝ) < scriptParams.period := by norm_num [scriptParams]
    rw [tswing_eq scriptParams hA hP 50, tswing_eq scriptParams hA hP 0,
      decay_factor_zero]
    have hkey := decay_factor_fifty_lt
    rw [show scriptParams.amplitude = 10 from by norm_num [scriptParams]]
    linarith

/-- Claim C10: with amplitude 0, every cell of the generated field equals the
mean temperature, at every depth and time, for any domains and remaining
parameters. -/
theorem zero_amplitude_constant (m k P off : ℝ)
    (depthDomain timeDomain : List ℝ) (z t : ℝ) :
    soil_temperature ⟨m, 0, k, P, off⟩ z t = m ∧
    temperature_field ⟨m, 0, k, P, off⟩ depthDomain timeDomain =
      depthDomain.map fun _ => timeDomain.map fun _ => m := by
  constructor
  · simp [soil_temperature]
  · simp [temperature_field, soil_temperature]

/-- Claim C2: the spec's generator fails fast with `InvalidDomainError` on any
domain-invariant violation and with `InvalidParameterError` on any
parameter-invariant violation, and on valid input it returns the complete
computed field — never a clamped, partial or default-substituted one. -/
theorem generateField_fail_fast (timeDomain depthDomain : List ℝ)
    (p : ThermalParams) :
    (¬ timeDomainOk timeDomain ∨ ¬ depthDomainOk depthDomain →
      generateField timeDomain depthDomain p =
        Except.error GenError.invalidDomain) ∧
    (timeDomainOk timeDomain → depthDomainOk depthDomain → ¬ paramsOk p →
      generateField timeDomain depthDomain p =
        Except.error GenError.invalidParameter) ∧
    (timeDomainOk timeDomain → depthDomainOk depthDomain → paramsOk p →
      generateField timeDomain depthDomain p =
        Except.ok (temperature_field p depthDomain timeDomain)) := by
  refine ⟨?_, ?_, ?_⟩
  · rintro (h | h)
    · rw [generateField, if_neg h]
    · by_cases ht : timeDomainOk timeDomain
      · rw [generateField, if_pos ht, if_neg h]
      · rw [generateField, if_neg ht]
  · intro ht hd hp
    rw [generateField, if_pos ht, if_pos hd, if_neg hp]
  · intro ht hd hp
    rw [generateField, if_pos ht, if_pos hd, if_pos hp]

/-- Witness for C2: an empty time domain raises the domain error, a negative
diffusivity raises the parameter error, and a valid input returns the full
field. -/
theorem generateField_fail_fast_witness :
    generateField [] [0] scriptParams = Except.error GenError.invalidDomain ∧
    generateField [0, 1] [0]
        { meanTemperature := 25, amplitude := 10, diffusivity := -1,
          period := 24, phaseOffset := 8 } =
      Except.error GenError.invalidParameter ∧
    generateField [0, 1] [0] scriptParams =
      Except.ok (temperature_field scriptParams [0] [0, 1]) := by
  have ht : timeDomainOk [0, 1] := by
    constructor
    · simp
    · norm_num [List.chain'_cons, List.chain'_singleton]
  have hd : depthDomainOk [0] := by
    refine ⟨by simp, by simp, by simp⟩
  refine ⟨?_, ?_, ?_⟩
  · exact (generateField_fail_fast [] [0] scriptParams).1
      (Or.inl (by simp [timeDomainOk]))
  · exact (generateField_fail_fast [0, 1] [0] _).2.1 ht hd
      (by norm_num [paramsOk])
  · exact (generateField_fail_fast [0, 1] [0] scriptParams).2.2 ht hd
      (by norm_num [paramsOk, scriptParams])
